import Mathlib

/-
  Verification development for the MOISSCode clinical-protocol language
  engine: a tree-walking interpreter over a fixed AST, plus the pure
  components it calls into (a unit-dimension checker, a two-state Kalman
  trend estimator and an administration-timing urgency classifier).

  Shallow embedding conventions:
  * Python floats are modelled as exact rationals (ℚ) and Python ints as
    ℤ.  (The parser converts every numeric literal with `float(...)`, so
    literal values in programs are always in the float constructor.)
  * Python dicts keyed by strings are ordered association lists with
    first-occurrence update, mirroring insertion-order semantics.
  * Python objects reachable from protocol code (the default Patient and
    the library handle) are a tagged field map; builtin attributes of
    Python values (e.g. dict methods) are outside the model.
  * Each kind of runtime exception is an explicit error value; the
    ReturnException used for function returns is threaded as an explicit
    signal, as recommended by the design notes of the specification.
  * The external capability library ("med") is opaque per the
    specification; the one library routine the interpreter invokes
    directly (the qSOFA scorer of med_scores) is embedded from source.
  * Recursion is measured by an explicit fuel counter decremented at
    every interpreter call; Python diverges exactly where every fuel
    bound is exhausted (e.g. unboundedly recursive user functions).
-/

namespace MOISS

/-! ## Runtime values -/

/-- A Python runtime value reachable from MOISSCode protocol execution. -/
inductive Value where
  | none
  | int (n : ℤ)
  | float (q : ℚ)
  | bool (b : Bool)
  | str (s : String)
  | list (xs : List Value)
  | dict (kvs : List (String × Value))
  | obj (tag : String) (fields : List (String × Value))

/-- The runtime exception kinds the embedded fragment can raise.
`outOfFuel` is the embedding artifact marking where Python would recurse
beyond the chosen fuel bound (payloads such as the offending key are not
carried). -/
inductive PyErr where
  | indexError
  | keyError
  | typeError
  | valueError
  | attributeError
  | zeroDivisionError
  | outOfFuel
  deriving DecidableEq

/-- Control signal produced by statement execution: fall through to the
next statement, or a ReturnException carrying the returned value. -/
inductive Sig where
  | next
  | ret (v : Value)

/-- First-match lookup in an ordered association list (Python dict read). -/
def lookupAssoc (kvs : List (String × Value)) (k : String) : Option Value :=
  match kvs with
  | [] => Option.none
  | (k1, v1) :: rest => if k1 = k then some v1 else lookupAssoc rest k

/-- Python dict write: overwrite in place if the key exists (keeping its
insertion position), else append. -/
def dictSet (kvs : List (String × Value)) (k : String) (v : Value) :
    List (String × Value) :=
  match kvs with
  | [] => [(k, v)]
  | (k1, v1) :: rest =>
    if k1 = k then (k1, v) :: rest else (k1, v1) :: dictSet rest k v

/-- Python `dict.update`: fold the writes of `src` over `dst`. -/
def dictUpdate (dst src : List (String × Value)) : List (String × Value) :=
  match src with
  | [] => dst
  | (k, v) :: rest => dictUpdate (dictSet dst k v) rest

/-- Numeric view of a value under Python arithmetic coercion
(bools are ints 0/1; everything non-numeric is excluded). -/
def asNumQ : Value → Option ℚ
  | .int n => some (n : ℚ)
  | .float q => some q
  | .bool b => some (if b then 1 else 0)
  | _ => Option.none

/-- Integer view of a value (int or bool), used to decide int-vs-float
results of Python arithmetic. -/
def asZ : Value → Option ℤ
  | .int n => some n
  | .bool b => some (if b then 1 else 0)
  | _ => Option.none

/-- Python truthiness. -/
def truthy : Value → Bool
  | .none => false
  | .int n => n ≠ 0
  | .float q => q ≠ 0
  | .bool b => b
  | .str s => s ≠ ""
  | .list xs => !xs.isEmpty
  | .dict kvs => !kvs.isEmpty
  | .obj _ _ => true

/-! ## Python equality and ordering

Embeds `==` / `<` / `<=` on the value domain: numeric kinds compare by
value, strings and lists compare structurally/lexicographically, and a
comparison between unrelated kinds is a TypeError (`Option.none`).
Equality of two `obj` values is modelled structurally (the reference
identity of CPython objects has no counterpart in the model); dicts
compare as ordered pairs. -/

mutual

def pyEq : Value → Value → Bool
  | .str a, .str b => a = b
  | .none, .none => true
  | .list xs, .list ys => pyEqList xs ys
  | .dict a, .dict b => pyEqPairs a b
  | .obj t1 f1, .obj t2 f2 => t1 = t2 && pyEqPairs f1 f2
  | a, b =>
    match asNumQ a, asNumQ b with
    | some x, some y => x = y
    | _, _ => false

def pyEqList : List Value → List Value → Bool
  | [], [] => true
  | x :: xs, y :: ys => pyEq x y && pyEqList xs ys
  | _, _ => false

def pyEqPairs : List (String × Value) → List (String × Value) → Bool
  | [], [] => true
  | (k1, v1) :: xs, (k2, v2) :: ys => k1 = k2 && pyEq v1 v2 && pyEqPairs xs ys
  | _, _ => false

def pyLtV : Value → Value → Option Bool
  | .str a, .str b => some (decide (a < b))
  | .list xs, .list ys => pyLtList xs ys
  | a, b =>
    match asNumQ a, asNumQ b with
    | some x, some y => some (decide (x < y))
    | _, _ => Option.none

def pyLtList : List Value → List Value → Option Bool
  | [], [] => some false
  | [], _ :: _ => some true
  | _ :: _, [] => some false
  | x :: xs, y :: ys => if pyEq x y then pyLtList xs ys else pyLtV x y

def pyLeV : Value → Value → Option Bool
  | .str a, .str b => some (decide (a < b) || decide (a = b))
  | .list xs, .list ys => pyLeList xs ys
  | a, b =>
    match asNumQ a, asNumQ b with
    | some x, some y => some (decide (x ≤ y))
    | _, _ => Option.none

def pyLeList : List Value → List Value → Option Bool
  | [], [] => some true
  | [], _ :: _ => some true
  | _ :: _, [] => some false
  | x :: xs, y :: ys => if pyEq x y then pyLeList xs ys else pyLtV x y

end

/-! ## Python string formatting (str()/repr()), used by log messages -/

/-- Fractional decimal digits of `rem/den`, with a digit budget; the
budget is never reached on the terminating decimals these programs
produce. -/
def fracDigits (den : ℕ) : ℕ → ℕ → String
  | _, 0 => ""
  | rem, budget + 1 =>
    if rem = 0 then ""
    else toString (rem * 10 / den) ++ fracDigits den (rem * 10 % den) (budget)

/-- Python `str()` of a float, on the exact rational model: sign, integer
part, then the terminating decimal expansion (`15.0`, `0.1`, `38.5`). -/
def pyFloatStr (q : ℚ) : String :=
  let sign := if q < 0 then "-" else ""
  let n := q.num.natAbs
  let d := q.den
  if n % d = 0 then sign ++ toString (n / d) ++ ".0"
  else sign ++ toString (n / d) ++ "." ++ fracDigits d (n % d) 40

/-- Formatting of the atomic field values appearing inside the default
Patient's custom `__repr__` (all its formatted fields are atoms). -/
def atomStr : Value → String
  | .none => "None"
  | .bool true => "True"
  | .bool false => "False"
  | .int n => toString n
  | .float q => pyFloatStr q
  | .str s => s
  | _ => "..."

/-- The custom `__repr__` of the Patient dataclass, and a stable
placeholder for the library handle (CPython would print a class name and
a memory address here; no claim observes it). -/
def objStr (tag : String) (fields : List (String × Value)) : String :=
  if tag = "Patient" then
    let f := fun n => atomStr ((lookupAssoc fields n).getD Value.none)
    let extras :=
      match lookupAssoc fields "extra" with
      | some (.dict kvs@(_ :: _)) => ", +" ++ toString kvs.length ++ " extra"
      | _ => ""
    "Patient(name=" ++ f "name" ++ ", age=" ++ f "age" ++ ", bp=" ++ f "bp" ++
      ", hr=" ++ f "hr" ++ extras ++ ")"
  else "<" ++ tag ++ ">"

mutual

/-- Python `repr()`. -/
def pyRepr : Value → String
  | .none => "None"
  | .bool true => "True"
  | .bool false => "False"
  | .int n => toString n
  | .float q => pyFloatStr q
  | .str s => "'" ++ s ++ "'"
  | .list xs => "[" ++ pyReprList xs ++ "]"
  | .dict kvs => "\x7b" ++ pyReprPairs kvs ++ "\x7d"
  | .obj tag fields => objStr tag fields

def pyReprList : List Value → String
  | [] => ""
  | [x] => pyRepr x
  | x :: rest => pyRepr x ++ ", " ++ pyReprList rest

def pyReprPairs : List (String × Value) → String
  | [] => ""
  | [(k, v)] => "'" ++ k ++ "': " ++ pyRepr v
  | (k, v) :: rest => "'" ++ k ++ "': " ++ pyRepr v ++ ", " ++ pyReprPairs rest

end

/-- Python `str()`: identical to `repr()` except on strings. -/
def pyStr : Value → String
  | .str s => s
  | v => pyRepr v

/-! ## Binary operators

The interpreter's `_eval_binary` is a fixed table of Python lambdas
wrapped in `try/except TypeError: return False`.  On this value domain
the lambdas can only raise TypeError (division by zero is guarded by the
table entry itself), so a raw operator returns `Option Value` with
`Option.none» playing the TypeError role. -/

/-- String repetition `s * n` (Python returns "" for n ≤ 0). -/
def strRepeat (s : String) : ℕ → String
  | 0 => ""
  | n + 1 => s ++ strRepeat s n

/-- List repetition `xs * n`. -/
def listRepeat (xs : List Value) : ℕ → List Value
  | 0 => []
  | n + 1 => xs ++ listRepeat xs n

/-- Python `a + b`. -/
def pyAdd (a b : Value) : Option Value :=
  match a, b with
  | .str s, .str t => some (.str (s ++ t))
  | .list xs, .list ys => some (.list (xs ++ ys))
  | _, _ =>
    match asZ a, asZ b with
    | some x, some y => some (.int (x + y))
    | _, _ =>
      match asNumQ a, asNumQ b with
      | some x, some y => some (.float (x + y))
      | _, _ => Option.none

/-- Python `a - b`. -/
def pySub (a b : Value) : Option Value :=
  match asZ a, asZ b with
  | some x, some y => some (.int (x - y))
  | _, _ =>
    match asNumQ a, asNumQ b with
    | some x, some y => some (.float (x - y))
    | _, _ => Option.none

/-- Python `a * b` (including sequence repetition by an int). -/
def pyMul (a b : Value) : Option Value :=
  match a, b with
  | .str s, b =>
    match asZ b with
    | some n => some (.str (strRepeat s n.toNat))
    | _ => Option.none
  | a, .str s =>
    match asZ a with
    | some n => some (.str (strRepeat s n.toNat))
    | _ => Option.none
  | .list xs, b =>
    match asZ b with
    | some n => some (.list (listRepeat xs n.toNat))
    | _ => Option.none
  | a, .list xs =>
    match asZ a with
    | some n => some (.list (listRepeat xs n.toNat))
    | _ => Option.none
  | _, _ =>
    match asZ a, asZ b with
    | some x, some y => some (.int (x * y))
    | _, _ =>
      match asNumQ a, asNumQ b with
      | some x, some y => some (.float (x * y))
      | _, _ => Option.none

/-- Python true division `a / b` for a nonzero right operand (always a
float). -/
def pyDiv (a b : Value) : Option Value :=
  match asNumQ a, asNumQ b with
  | some x, some y => some (.float (x / y))
  | _, _ => Option.none

/-- One entry of the interpreter's binary-operator table, before the
TypeError wrapper: `Option.none` is a raised TypeError, and an unknown
operator string has no table entry. -/
def evalBinaryRaw (a : Value) (op : String) (b : Value) : Option Value :=
  if op = "+" then pyAdd a b
  else if op = "-" then pySub a b
  else if op = "*" then pyMul a b
  else if op = "/" then
    if pyEq b (.int 0) then some (.int 0) else pyDiv a b
  else if op = "<" then (pyLtV a b).map .bool
  else if op = ">" then (pyLtV b a).map .bool
  else if op = "<=" then (pyLeV a b).map .bool
  else if op = ">=" then (pyLeV b a).map .bool
  else if op = "==" then some (.bool (pyEq a b))
  else if op = "!=" then some (.bool (!pyEq a b))
  else if op = "and" then some (if truthy a then b else a)
  else if op = "or" then some (if truthy a then a else b)
  else Option.none

/-- `MOISSCodeInterpreter._eval_binary`: apply the table entry; a raised
TypeError — or a missing table entry — degrades to Python `False`. -/
def evalBinary (a : Value) (op : String) (b : Value) : Value :=
  match evalBinaryRaw a op b with
  | some v => v
  | Option.none => .bool false

/-! ## Character/string helpers (Python `str.split`, `in`, `.upper()`)

`String.splitOn` and friends do not reduce definitionally, so the
embedding carries its own structural versions over the character list. -/

def pySplitAux (sep : Char) : List Char → List Char → List String
  | [], acc => [String.mk acc.reverse]
  | c :: rest, acc =>
    if c = sep then String.mk acc.reverse :: pySplitAux sep rest []
    else pySplitAux sep rest (c :: acc)

/-- Python `s.split(sep)` for a single-character separator. -/
def pySplit (s : String) (sep : Char) : List String :=
  pySplitAux sep s.data []

/-- Python `c in s` for a single character. -/
def hasChar (s : String) (c : Char) : Bool := s.data.contains c

def upChar (c : Char) : Char :=
  if 'a' ≤ c ∧ c ≤ 'z' then Char.ofNat (c.toNat - 32) else c

/-- Python `s.upper()` (ASCII, which covers every severity string). -/
def upStr (s : String) : String := String.mk (s.data.map upChar)

/-! ## Unit system (`typesystem.UnitSystem`) -/

/-- `UnitSystem.DIMENSIONS`: base unit text to dimension category. -/
def DIMENSIONS : List (String × String) :=
  [("mg", "mass"), ("mcg", "mass"), ("g", "mass"), ("kg", "mass"),
   ("L", "volume"), ("mL", "volume"), ("mmHg", "pressure"),
   ("mmol", "amount"), ("mol", "amount"), ("IU", "activity"),
   ("min", "time"), ("hr", "time")]

def lookupStr (kvs : List (String × String)) (k : String) : Option String :=
  match kvs with
  | [] => Option.none
  | (k1, v1) :: rest => if k1 = k then some v1 else lookupStr rest k

/-- `UnitSystem.CONVERSIONS`: sparse (from, to) → factor table.  The
decimal float factors of the source are modelled as exact rationals
(`1/60` is the exact value of the source's `1/60` expression). -/
def CONVERSIONS : List ((String × String) × ℚ) :=
  [(("mcg", "mg"), 0.001), (("mg", "mcg"), 1000),
   (("mg", "g"), 0.001), (("g", "mg"), 1000),
   (("g", "kg"), 0.001), (("kg", "g"), 1000),
   (("mL", "L"), 0.001), (("L", "mL"), 1000),
   (("min", "hr"), 1/60), (("hr", "min"), 60)]

def lookupConv (kvs : List ((String × String) × ℚ)) (k : String × String) :
    Option ℚ :=
  match kvs with
  | [] => Option.none
  | (k1, v1) :: rest => if k1 = k then some v1 else lookupConv rest k

/-- `UnitSystem.get_dimension`: compound units reduce to the segment
before the first '/'. -/
def get_dimension (unit : String) : Option String :=
  match pySplit unit '/' with
  | [] => lookupStr DIMENSIONS unit
  | base :: _ => lookupStr DIMENSIONS base

/-- `UnitSystem.are_compatible`. -/
def are_compatible (unit1 unit2 : String) : Bool :=
  if unit1 = unit2 then true
  else
    match get_dimension unit1, get_dimension unit2 with
    | Option.none, _ => true
    | _, Option.none => true
    | some d1, some d2 => d1 = d2

/-- `UnitSystem.convert`: identity on equal units, table factor on a
listed pair, otherwise a raised ValueError (modelled as the error
message). -/
def convert (value : ℚ) (from_unit to_unit : String) : Except String ℚ :=
  if from_unit = to_unit then .ok value
  else
    match lookupConv CONVERSIONS (from_unit, to_unit) with
    | some factor => .ok (value * factor)
    | Option.none =>
      .error ("Cannot convert from " ++ from_unit ++ " to " ++ to_unit)

/-! ## KAE estimator (`stdlib.KAE_Estimator`) -/

/-- Estimator state: two state scalars and the two tracked covariance
scalars (the cross-term is implicitly zero and never stored). -/
structure KState where
  pos : ℚ
  vel : ℚ
  p11 : ℚ
  p22 : ℚ
  deriving DecidableEq

/-- Fixed baseline measurement noise `R0`. -/
def KAE_R0 : ℚ := 25

/-- Fixed process-noise scalar `Q0`. -/
def KAE_Q0 : ℚ := 0.1

/-- Fixed step size `dt` in minutes. -/
def KAE_dt : ℚ := 5

/-- `KAE_Estimator.__init__` state. -/
def kaeInitState : KState := { pos := 0, vel := 0, p11 := 1, p22 := 100 }

/-- `KAE_Estimator.update` on the exact rational model.  A vanishing
innovation covariance `S` would be a Python ZeroDivisionError (never hit
from the initial state, but the state space is unconstrained here).
Note: the gain `K2` reads `self.P['p22']` — the covariance entry from
BEFORE the predict step — because the predicted value only lives in the
local `p22_pred` at that point. -/
def kaeUpdate (st : KState) (measurement : ℚ) (reliability : ℚ) :
    Except PyErr KState :=
  let rel := if reliability < 0.0001 then 0.0001 else reliability
  let R := KAE_R0 / rel
  let pred_pos := st.pos + st.vel * KAE_dt
  let pred_vel := st.vel
  let p11_pred := st.p11 + KAE_dt ^ 2 * st.p22 + KAE_Q0
  let p22_pred := st.p22 + KAE_Q0
  let S := p11_pred + R
  if S = 0 then .error .zeroDivisionError
  else
    let K1 := p11_pred / S
    let K2 := st.p22 * KAE_dt / S
    let innovation := measurement - pred_pos
    .ok { pos := pred_pos + K1 * innovation
          vel := pred_vel + K2 * innovation
          p11 := (1 - K1) * p11_pred
          p22 := (1 - K2 * KAE_dt) * p22_pred }

/-- Modelled from the spec: the update step exactly as §4.5 of the
specification words it, for refinement comparison against `kaeUpdate`.
The only difference is the gain `K2 = (p22′·dt)/(p11′+R)`, which uses the
PREDICTED covariance `p22_pred`. -/
def kaeUpdatePerSpec (st : KState) (measurement : ℚ) (reliability : ℚ) :
    Except PyErr KState :=
  let rel := if reliability < 0.0001 then 0.0001 else reliability
  let R := KAE_R0 / rel
  let pred_pos := st.pos + st.vel * KAE_dt
  let pred_vel := st.vel
  let p11_pred := st.p11 + KAE_dt ^ 2 * st.p22 + KAE_Q0
  let p22_pred := st.p22 + KAE_Q0
  let S := p11_pred + R
  if S = 0 then .error .zeroDivisionError
  else
    let K1 := p11_pred / S
    let K2 := p22_pred * KAE_dt / S
    let innovation := measurement - pred_pos
    .ok { pos := pred_pos + K1 * innovation
          vel := pred_vel + K2 * innovation
          p11 := (1 - K1) * p11_pred
          p22 := (1 - K2 * KAE_dt) * p22_pred }

/-! ## Pharmacokinetic profiles and the MOISS classifier -/

/-- The fields of `med_pk.DrugProfile` consumed by the embedded fragment
(the classifier reads `onset_min`; the dosing bounds are carried for
reference — the shipped interpreter never consults them).  Omitted
source fields (category, half-life, interactions, …) are not reachable
from the embedded code paths. -/
structure DrugProfile where
  onset_min : ℚ
  standard_dose : ℚ
  dose_unit : String
  max_dose : ℚ
  min_dose : ℚ
  toxic_dose : ℚ
  deriving DecidableEq

def lookupDrug (kvs : List (String × DrugProfile)) (k : String) :
    Option DrugProfile :=
  match kvs with
  | [] => Option.none
  | (k1, v1) :: rest => if k1 = k then some v1 else lookupDrug rest k

/-- `med_pk.DRUG_DATABASE`, restricted to the carried fields.  The
source dict literal lists "Furosemide" twice with identical values;
one entry is kept. -/
def drugDB1 : List (String × DrugProfile) := [
  ("Norepinephrine", ⟨1, 0.1, "mcg/kg/min", 3.3, 0.01, 10⟩),
  ("Vasopressin", ⟨1, 0.04, "units/min", 0.04, 0.01, 0.1⟩),
  ("Epinephrine", ⟨1, 0.05, "mcg/kg/min", 2, 0.01, 5⟩),
  ("Vancomycin", ⟨30, 15, "mg/kg", 20, 10, 40⟩),
  ("Furosemide", ⟨5, 40, "mg", 200, 20, 600⟩),
  ("Propofol", ⟨0.5, 50, "mcg/kg/min", 200, 5, 500⟩),
  ("Thiamine", ⟨15, 100, "mg", 500, 100, 1500⟩),
  ("Heparin", ⟨5, 18, "units/kg/hr", 25, 10, 50⟩),
  ("Morphine", ⟨5, 0.1, "mg/kg", 0.2, 0.05, 0.5⟩),
  ("Fentanyl", ⟨1, 1, "mcg/kg", 5, 0.5, 15⟩),
  ("Midazolam", ⟨2, 0.05, "mg/kg", 0.1, 0.02, 0.3⟩),
  ("Dexmedetomidine", ⟨15, 0.5, "mcg/kg/hr", 1.5, 0.2, 4⟩),
  ("Ketamine", ⟨1, 1.5, "mg/kg", 4.5, 0.5, 10⟩),
  ("Amoxicillin", ⟨30, 500, "mg", 3000, 250, 6000⟩),
  ("Metformin", ⟨60, 500, "mg", 2550, 500, 5000⟩),
  ("Insulin_Regular", ⟨15, 0.1, "units/kg", 0.3, 0.05, 1⟩),
  ("Ceftriaxone", ⟨30, 1000, "mg", 4000, 250, 8000⟩),
  ("Meropenem", ⟨15, 1000, "mg", 6000, 500, 12000⟩)]

def drugDB2 : List (String × DrugProfile) := [
  ("Piperacillin_Tazobactam", ⟨15, 4500, "mg", 18000, 2250, 36000⟩),
  ("Azithromycin", ⟨120, 500, "mg", 2000, 250, 4000⟩),
  ("Levofloxacin", ⟨60, 750, "mg", 750, 250, 1500⟩),
  ("Ciprofloxacin", ⟨60, 400, "mg", 1200, 200, 2400⟩),
  ("Gentamicin", ⟨30, 5, "mg/kg", 7, 1, 10⟩),
  ("Metronidazole", ⟨60, 500, "mg", 4000, 250, 8000⟩),
  ("Doxycycline", ⟨120, 100, "mg", 200, 100, 600⟩),
  ("Fluconazole", ⟨60, 400, "mg", 800, 100, 1600⟩),
  ("Amphotericin_B", ⟨60, 0.5, "mg/kg", 1.5, 0.25, 3⟩),
  ("Caspofungin", ⟨60, 50, "mg", 70, 35, 140⟩),
  ("Linezolid", ⟨60, 600, "mg", 1200, 600, 2400⟩),
  ("Daptomycin", ⟨30, 6, "mg/kg", 10, 4, 15⟩),
  ("Cefazolin", ⟨15, 1000, "mg", 6000, 500, 12000⟩),
  ("Cefepime", ⟨15, 2000, "mg", 6000, 500, 12000⟩),
  ("TMP_SMX", ⟨60, 160, "mg", 320, 80, 960⟩),
  ("Clindamycin", ⟨30, 600, "mg", 2700, 150, 4800⟩),
  ("Colistin", ⟨30, 2.5, "mg/kg", 5, 1.5, 7.5⟩),
  ("Rifampin", ⟨120, 600, "mg", 600, 300, 1200⟩)]

def drugDB3 : List (String × DrugProfile) := [
  ("Amiodarone", ⟨120, 200, "mg", 400, 100, 800⟩),
  ("Diltiazem", ⟨3, 0.25, "mg/kg", 0.35, 0.15, 1⟩),
  ("Metoprolol", ⟨5, 5, "mg", 15, 2.5, 50⟩),
  ("Atenolol", ⟨60, 50, "mg", 100, 25, 300⟩),
  ("Lisinopril", ⟨60, 10, "mg", 40, 2.5, 80⟩),
  ("Amlodipine", ⟨360, 5, "mg", 10, 2.5, 30⟩),
  ("Nitroglycerin", ⟨1, 5, "mcg/min", 200, 5, 400⟩),
  ("Dobutamine", ⟨2, 5, "mcg/kg/min", 20, 2, 40⟩),
  ("Milrinone", ⟨5, 0.375, "mcg/kg/min", 0.75, 0.125, 1.5⟩),
  ("Digoxin", ⟨30, 0.25, "mg", 0.5, 0.0625, 2⟩),
  ("Hydralazine", ⟨10, 10, "mg", 40, 5, 100⟩),
  ("Nitroprusside", ⟨0.5, 0.3, "mcg/kg/min", 10, 0.3, 15⟩),
  ("Losartan", ⟨60, 50, "mg", 100, 25, 300⟩),
  ("Enalapril", ⟨60, 5, "mg", 40, 1.25, 80⟩),
  ("Hydromorphone", ⟨5, 0.5, "mg", 4, 0.2, 10⟩),
  ("Remifentanil", ⟨1, 0.1, "mcg/kg/min", 0.5, 0.025, 2⟩),
  ("Acetaminophen", ⟨30, 1000, "mg", 4000, 325, 10000⟩),
  ("Ketorolac", ⟨10, 30, "mg", 120, 15, 240⟩)]

def drugDB4 : List (String × DrugProfile) := [
  ("Lorazepam", ⟨5, 0.5, "mg", 4, 0.5, 10⟩),
  ("Gabapentin", ⟨120, 300, "mg", 3600, 100, 8000⟩),
  ("Enoxaparin", ⟨180, 1, "mg/kg", 1.5, 0.5, 3⟩),
  ("Warfarin", ⟨1440, 5, "mg", 10, 1, 20⟩),
  ("Apixaban", ⟨180, 5, "mg", 10, 2.5, 20⟩),
  ("Rivaroxaban", ⟨120, 20, "mg", 20, 10, 40⟩),
  ("Alteplase", ⟨5, 0.9, "mg/kg", 90, 0.5, 150⟩),
  ("Clopidogrel", ⟨120, 75, "mg", 300, 75, 600⟩),
  ("Ticagrelor", ⟨60, 90, "mg", 180, 60, 360⟩),
  ("Bivalirudin", ⟨2, 0.75, "mg/kg", 1.75, 0.1, 5⟩),
  ("Levetiracetam", ⟨30, 500, "mg", 3000, 250, 6000⟩),
  ("Phenytoin", ⟨30, 15, "mg/kg", 20, 10, 30⟩),
  ("Valproic_Acid", ⟨15, 20, "mg/kg", 60, 10, 100⟩),
  ("Haloperidol", ⟨10, 2, "mg", 20, 0.5, 40⟩),
  ("Olanzapine", ⟨15, 5, "mg", 20, 2.5, 40⟩),
  ("Lacosamide", ⟨30, 200, "mg", 400, 50, 800⟩),
  ("Carbamazepine", ⟨120, 200, "mg", 1600, 100, 3200⟩),
  ("Quetiapine", ⟨60, 25, "mg", 800, 25, 1600⟩)]

def drugDB5 : List (String × DrugProfile) := [
  ("Omeprazole", ⟨60, 40, "mg", 80, 20, 160⟩),
  ("Pantoprazole", ⟨120, 40, "mg", 80, 20, 240⟩),
  ("Ondansetron", ⟨5, 4, "mg", 16, 4, 32⟩),
  ("Hydrocortisone", ⟨30, 100, "mg", 300, 25, 1000⟩),
  ("Methylprednisolone", ⟨30, 125, "mg", 1000, 40, 2000⟩),
  ("Levothyroxine", ⟨1440, 1.6, "mcg/kg", 300, 0.5, 500⟩),
  ("Octreotide", ⟨30, 50, "mcg", 500, 25, 1000⟩),
  ("Metoclopramide", ⟨3, 10, "mg", 40, 5, 80⟩),
  ("Famotidine", ⟨30, 20, "mg", 40, 10, 160⟩),
  ("Dexamethasone", ⟨60, 4, "mg", 20, 0.5, 40⟩),
  ("Albuterol", ⟨5, 2.5, "mg", 10, 1.25, 20⟩),
  ("Ipratropium", ⟨15, 0.5, "mg", 2, 0.25, 4⟩),
  ("Budesonide", ⟨120, 0.5, "mg", 2, 0.25, 4⟩),
  ("Atropine", ⟨1, 0.5, "mg", 3, 0.5, 10⟩),
  ("Adenosine", ⟨0.2, 6, "mg", 12, 6, 24⟩),
  ("Naloxone", ⟨2, 0.4, "mg", 10, 0.04, 20⟩),
  ("Flumazenil", ⟨1, 0.2, "mg", 3, 0.1, 5⟩),
  ("Calcium_Chloride", ⟨1, 1000, "mg", 3000, 500, 6000⟩)]

def drugDB6 : List (String × DrugProfile) := [
  ("Sodium_Bicarbonate", ⟨2, 1, "mEq/kg", 200, 0.5, 400⟩),
  ("Magnesium_Sulfate", ⟨5, 2000, "mg", 6000, 1000, 10000⟩),
  ("Epinephrine_IV", ⟨0.5, 1, "mg", 10, 0.1, 20⟩),
  ("Insulin_Lispro", ⟨15, 0.1, "units/kg", 0.3, 0.05, 1⟩),
  ("Insulin_Glargine", ⟨120, 0.2, "units/kg", 0.5, 0.1, 2⟩),
  ("Glipizide", ⟨30, 5, "mg", 40, 2.5, 80⟩),
  ("Empagliflozin", ⟨60, 10, "mg", 25, 10, 50⟩),
  ("Remdesivir", ⟨30, 200, "mg", 200, 100, 400⟩),
  ("Oseltamivir", ⟨60, 75, "mg", 150, 30, 300⟩),
  ("Acyclovir", ⟨30, 10, "mg/kg", 20, 5, 40⟩),
  ("Tenofovir", ⟨60, 300, "mg", 300, 150, 600⟩),
  ("Tacrolimus", ⟨60, 0.05, "mg/kg", 0.3, 0.01, 0.5⟩),
  ("Cyclosporine", ⟨60, 3, "mg/kg", 5, 1, 10⟩),
  ("Methotrexate", ⟨60, 15, "mg", 25, 7.5, 50⟩),
  ("Lithium", ⟨360, 300, "mg", 1800, 150, 3600⟩),
  ("Spironolactone", ⟨2880, 25, "mg", 100, 12.5, 400⟩)]

def DRUG_DATABASE : List (String × DrugProfile) :=
  drugDB1 ++ drugDB2 ++ drugDB3 ++ drugDB4 ++ drugDB5 ++ drugDB6

/-- `PharmacokineticEngine.get_profile`. -/
def get_profile (drug_name : String) : Option DrugProfile :=
  lookupDrug DRUG_DATABASE drug_name

/-- The boundary chain of `MOISS_Classifier.classify`, parameterized by
the resolved effect onset `t_effect`. -/
def classifyCore (t_effect t_crit_min : ℚ) : String :=
  let delta_t := t_crit_min - t_effect
  if delta_t > t_effect then "PROPHYLACTIC"
  else if 0 < delta_t ∧ delta_t ≤ t_effect then "ON_TIME"
  else if -0.25 * t_effect < delta_t ∧ delta_t ≤ 0 then "PARTIAL"
  else if -0.5 * t_effect < delta_t ∧ delta_t ≤ -0.25 * t_effect then "MARGINAL"
  else if -1.0 * t_effect < delta_t ∧ delta_t ≤ -0.5 * t_effect then "FUTILE"
  else "TOO_LATE"

/-- `MOISS_Classifier.classify` with the profile lookup already
performed (the function consumes the profile only through its onset;
the fallback onset for an unregistered drug is 30 minutes). -/
def classifyWith (profile : Option DrugProfile) (t_crit_min : ℚ) : String :=
  classifyCore
    (match profile with
     | some p => p.onset_min
     | Option.none => 30) t_crit_min

/-- `MOISS_Classifier.classify(t_crit_min, drug_name)`. -/
def MOISS_classify (t_crit_min : ℚ) (drug_name : String) : String :=
  classifyWith (get_profile drug_name) t_crit_min

/-- The onset a classification of `drug_name` is based on (profile onset
or the 30-minute fallback). -/
def onsetOf (drug_name : String) : ℚ :=
  match get_profile drug_name with
  | some p => p.onset_min
  | Option.none => 30

/-! ## qSOFA (`med_scores.ClinicalScores.qsofa`)

The one library routine the interpreter body calls directly (from
`execute_assess`).  `hasattr` on the model's object values is a field
lookup; a present but non-numeric field makes the Python comparison
raise TypeError. -/

/-- Python `getattr` on the model's value domain (builtin attributes of
non-object values are outside the model). -/
def pyGetattr : Value → String → Option Value
  | .obj _ fields, name => lookupAssoc fields name
  | _, _ => Option.none

/-- One qSOFA criterion: score a point if the attribute exists and the
comparison holds; a non-numeric attribute raises TypeError. -/
def qsofaPoint (p : Value) (attr : String) (test : ℚ → Bool) :
    Except PyErr ℤ :=
  match pyGetattr p attr with
  | Option.none => .ok 0
  | some v =>
    match asNumQ v with
    | Option.none => .error .typeError
    | some q => .ok (if test q then 1 else 0)

/-- `ClinicalScores.qsofa`: RR ≥ 22, SBP ≤ 100 (under `bp`, else under
`sbp`), GCS < 15.  The `bp` branch shadows the `sbp` branch only when it
scores (Python's `if … and …: … elif …`). -/
def qsofa (p : Value) : Except PyErr ℤ :=
  match qsofaPoint p "rr" (fun q => q ≥ 22) with
  | .error e => .error e
  | .ok s1 =>
    match qsofaPoint p "bp" (fun q => q ≤ 100) with
    | .error e => .error e
    | .ok sbp1 =>
      match
        (if sbp1 = 1 then .ok 1
         else qsofaPoint p "sbp" (fun q => q ≤ 100) : Except PyErr ℤ) with
      | .error e => .error e
      | .ok s2 =>
        match qsofaPoint p "gcs" (fun q => q < 15) with
        | .error e => .error e
        | .ok s3 => .ok (s1 + s2 + s3)

/-! ## AST (`ast_nodes`), restricted to the nodes the parser produces

The parser flattens dotted names into a single identifier string, emits
every string literal as a `Literal` node, converts every numeric literal
with `float(...)`, and never emits `StringLiteral`/`MapLiteral`/
`MemberAccess` nodes, so those are not part of the executable surface. -/

inductive Expr where
  | lit (value : Value) (unit : Option String)
  | listLit (elements : List Expr)
  | indexAccess (object : Expr) (index : Expr)
  | unaryOp (op : String) (operand : Expr)
  | ident (name : String)
  | funcCall (function_name : String) (arguments : List Expr)
  | binaryOp (left : Expr) (op : String) (right : Expr)
  | ctorCall (type_name : String) (field_values : List (String × Expr))

inductive Stmt where
  | track (target : String) (using_kae : Bool)
  | administer (drug_name : String) (dose_amount : ℚ) (dose_unit : String)
  | ifS (condition : Expr) (then_block : List Stmt) (else_block : Option (List Stmt))
  | letS (name : String) (type_name : Option String) (value : Expr)
  | whileS (condition : Expr) (body : List Stmt)
  | forEach (var_name : String) (iterable : Expr) (body : List Stmt)
  | assess (target : String) (condition : String)
  | alert (message : Expr) (severity : String)
  | ret (value : Option Expr)
  | exprS (e : Expr)

structure FieldDecl where
  name : String
  type_name : String
  default_value : Option Expr

structure TypeDef where
  name : String
  parent : Option String
  fields : List FieldDecl

structure ParamDecl where
  name : String
  type_name : Option String

structure FunctionDef where
  name : String
  params : List ParamDecl
  body : List Stmt
  return_type : Option String

structure VariableDecl where
  name : String
  type_name : String

structure ProtocolDef where
  name : String
  inputs : List VariableDecl
  body : List Stmt

structure Program where
  imports : List String
  type_defs : List TypeDef
  function_defs : List FunctionDef
  protocols : List ProtocolDef

/-! ## Runtime events and interpreter state -/

/-- One entry of the ordered `runtime_events` list; each constructor
mirrors one dict shape the interpreter appends (its `type` tag and its
type-specific fields). -/
inductive Event where
  | log (message : String)
  | track (target : String) (value : Value)
  | trackKAE (target : String) (raw : Value) (kae_pos kae_vel : ℚ)
  | administer (drug : String) (dose : String) (moiss_class : String)
  | letEvent (name : String) (value : Value)
  | forEachEvent (var : String) (count : ℕ)
  | assessScored (condition : String) (score : ℤ) (scoring : String) (risk : String)
  | assessEvaluated (condition : String)
  | alert (message : Value) (severity : String)
  | namespacedCall (tag : String) (method : String) (result : Value)

/-- A scope slot: `{'type': ..., 'value': ...}`. -/
structure Binding where
  ty : String
  value : Value

/-- The interpreter's mutable attributes reachable from the embedded
fragment.  (`type_checker` and `call_stack` are initialized by the
source but never consulted by any executed code path.) -/
structure InterpState where
  scope : String → Option Binding
  kae_instances : String → Option KState
  user_types : String → Option TypeDef
  user_functions : String → Option FunctionDef
  runtime_events : List Event

/-- `MOISSCodeInterpreter.MAX_LOOP_ITERATIONS`. -/
def MAX_LOOP_ITERATIONS : ℕ := 1000

/-- `MOISSCodeInterpreter.log`: printing aside, appends a LOG event. -/
def logMsg (message : String) (s : InterpState) : InterpState :=
  { s with runtime_events := s.runtime_events ++ [.log message] }

def addEvent (e : Event) (s : InterpState) : InterpState :=
  { s with runtime_events := s.runtime_events ++ [e] }

def setVar (s : InterpState) (name : String) (b : Binding) : InterpState :=
  { s with scope := fun n => if n = name then some b else s.scope n }

def delVar (s : InterpState) (name : String) : InterpState :=
  { s with scope := fun n => if n = name then Option.none else s.scope n }

/-- Construction-time scope: only the library handle, under "med".  The
external library is opaque (spec §2/§6), so its handle carries no
modelled attributes. -/
def initState : InterpState :=
  { scope := fun n =>
      if n = "med" then some { ty := "Library", value := .obj "Library" [] }
      else Option.none
    kae_instances := fun _ => Option.none
    user_types := fun _ => Option.none
    user_functions := fun _ => Option.none
    runtime_events := [] }

/-- The default Patient instance bound to unbound "Patient"-typed
protocol inputs (`execute_protocol`), with the interpreter's keyword
overrides over the dataclass defaults.  The two computed properties are
materialized since their inputs are fixed at construction and the
embedded fragment never mutates a patient. -/
def defaultPatient : Value :=
  .obj "Patient"
    [("name", .str "Unknown"), ("age", .int 55), ("weight", .int 70),
     ("sex", .str "M"), ("bp", .int 85), ("diastolic_bp", .float 80),
     ("hr", .int 110), ("rr", .int 24), ("temp", .float 38.5),
     ("spo2", .int 94), ("gcs", .int 14), ("lactate", .float 3.2),
     ("height", .float 170), ("extra", .dict []),
     ("map", .float (245/3)), ("bmi", .float 24.2)]

/-! ## Member-path resolution (`resolve_member`) -/

/-- One resolution step of `resolve_member`: dict key first, then
attribute lookup. -/
def memberLookup (cur : Value) (part : String) : Option Value :=
  match cur with
  | .dict kvs =>
    match lookupAssoc kvs part with
    | some v => some v
    | Option.none => pyGetattr cur part
  | _ => pyGetattr cur part

/-- Walk the tail of a dotted path; any unresolvable segment yields the
neutral zero. -/
def resolveParts : Value → List String → Value
  | cur, [] => cur
  | cur, part :: rest =>
    match memberLookup cur part with
    | some nxt => resolveParts nxt rest
    | Option.none => .int 0

/-- `MOISSCodeInterpreter.resolve_member`. -/
def resolveMember (s : InterpState) (path : String) : Value :=
  match pySplit path '.' with
  | [] => .int 0
  | obj_name :: rest =>
    match s.scope obj_name with
    | Option.none => .int 0
    | some b => resolveParts b.value rest

/-! ## Non-recursive statement bodies -/

/-- Python `round(x, n)` on the rational model (round-half-to-even).
CPython rounds the binary double; on the dyadic/decimal values these
programs produce the results agree, and no claim observes a tie. -/
def roundHalfEven (x : ℚ) : ℤ :=
  let f := ⌊x⌋
  let r := x - f
  if r < 1/2 then f
  else if r > 1/2 then f + 1
  else if f % 2 = 0 then f else f + 1

def pythonRound (x : ℚ) (digits : ℕ) : ℚ :=
  (roundHalfEven (x * 10 ^ digits) : ℚ) / 10 ^ digits

/-- `execute_track`: resolve the path; optionally route through the
per-path estimator (created on first use, reliability defaulted).  A
non-numeric tracked value makes the estimator's `measurement - pred_pos`
raise TypeError. -/
def execTrack (s : InterpState) (target : String) (using_kae : Bool) :
    Except PyErr InterpState :=
  let value := resolveMember s target
  if using_kae then
    let est0 :=
      match s.kae_instances target with
      | some st => st
      | Option.none => kaeInitState
    match asNumQ value with
    | Option.none => .error .typeError
    | some m =>
      match kaeUpdate est0 m 1 with
      | .error e => .error e
      | .ok st1 =>
        let kp := pythonRound st1.pos 2
        let kv := pythonRound st1.vel 4
        let s1 := { s with kae_instances :=
                      fun t => if t = target then some st1 else s.kae_instances t }
        let s2 := logMsg ("[Track] " ++ target ++ " = " ++ pyStr value ++
                    " (KAE: pos=" ++ pyFloatStr kp ++ ", vel=" ++ pyFloatStr kv ++ ")") s1
        .ok (addEvent (.trackKAE target value kp kv) s2)
  else
    let s1 := logMsg ("[Track] " ++ target ++ " = " ++ pyStr value) s
    .ok (addEvent (.track target value) s1)

/-- `execute_administer`: classify the timing (fixed `5.0` minutes to
criticality), format the dose, log and emit the ADMINISTER event.  As
shipped this routine performs NO dose validation and can never raise. -/
def execAdminister (s : InterpState) (drug_name : String) (dose_amount : ℚ)
    (dose_unit : String) : InterpState :=
  let moiss_class := MOISS_classify 5 drug_name
  let s1 := logMsg ("[Administer] " ++ drug_name ++ " " ++ pyFloatStr dose_amount ++
              " " ++ dose_unit ++ " | MOISS: " ++ moiss_class) s
  addEvent (.administer drug_name (pyFloatStr dose_amount ++ " " ++ dose_unit)
              moiss_class) s1

/-- Python repr of the scored ASSESS result dict, for its log line. -/
def assessScoredStr (condition : String) (score : ℤ) (risk : String) : String :=
  "\x7b'type': 'ASSESS', 'condition': '" ++ condition ++ "', 'score': " ++
    toString score ++ ", 'scoring': 'qSOFA', 'risk': '" ++ risk ++ "'\x7d"

/-- Python repr of the generic ASSESS result dict, for its log line. -/
def assessEvaluatedStr (condition : String) : String :=
  "\x7b'type': 'ASSESS', 'condition': '" ++ condition ++ "', 'status': 'evaluated'\x7d"

/-- `execute_assess`: the sepsis branch requires a respiratory-rate
attribute and calls the library's qSOFA scorer through the "med" scope
slot directly (not through dotted dispatch); a rebound non-library
"med" would fail its attribute lookups. -/
def execAssess (s : InterpState) (target condition : String) :
    Except PyErr InterpState :=
  let target_val := resolveMember s target
  let s1 := logMsg ("[Assess] Evaluating " ++ target ++ " for " ++ condition ++ "...") s
  if condition = "sepsis" ∧ (pyGetattr target_val "rr").isSome then
    match s1.scope "med" with
    | Option.none => .error .keyError
    | some b =>
      match b.value with
      | .obj "Library" _ =>
        match qsofa target_val with
        | .error e => .error e
        | .ok score =>
          let risk := if score ≥ 2 then "HIGH"
                      else if score = 1 then "MODERATE" else "LOW"
          let s2 := logMsg ("[Assess] Result: " ++ assessScoredStr condition score risk) s1
          .ok (addEvent (.assessScored condition score "qSOFA" risk) s2)
      | _ => .error .attributeError
  else
    let s2 := logMsg ("[Assess] Result: " ++ assessEvaluatedStr condition) s1
    .ok (addEvent (.assessEvaluated condition) s2)

/-- Interior-segment walk of `_call_dotted`: attribute first, then dict
key (the opposite order of `resolve_member`). -/
def walkInterior : Value → List String → Option Value
  | cur, [] => some cur
  | cur, part :: rest =>
    match pyGetattr cur part with
    | some nxt => walkInterior nxt rest
    | Option.none =>
      match cur with
      | .dict kvs =>
        match lookupAssoc kvs part with
        | some nxt => walkInterior nxt rest
        | Option.none => Option.none
      | _ => Option.none

/-- `_call_dotted`: any unresolved segment yields a neutral None.  On
this value domain no attribute is callable (real library methods live
behind the opaque handle), so a resolved final attribute is returned
as-is — the source's non-callable branch — and the `<NAME>_CALL` event
branch is unreachable in the model. -/
def dottedCall (s : InterpState) (name : String) (_args : List Value) : Value :=
  match pySplit name '.' with
  | [] => Value.none
  | [_] => Value.none
  | obj_name :: rest =>
    match s.scope obj_name with
    | Option.none => Value.none
    | some b =>
      match walkInterior b.value rest.dropLast with
      | Option.none => Value.none
      | some current =>
        match pyGetattr current ((rest.getLast?).getD "") with
        | some v => v
        | Option.none => Value.none

/-! ## Values consumed by index access and iteration -/

/-- Truncation toward zero, Python `int(float)`. -/
def ratTrunc (q : ℚ) : ℤ := if q < 0 then ⌈q⌉ else ⌊q⌋

def digitsToNat (ds : List Char) : ℕ :=
  ds.foldl (fun a c => a * 10 + (c.toNat - 48)) 0

/-- Python `int(str)`: strip spaces, optional sign, all digits. -/
def parseIntStr (s : String) : Except PyErr ℤ :=
  let cs := ((s.data.dropWhile (· = ' ')).reverse.dropWhile (· = ' ')).reverse
  match cs with
  | '-' :: ds =>
    if !ds.isEmpty ∧ ds.all Char.isDigit then .ok (-(digitsToNat ds : ℤ))
    else .error .valueError
  | '+' :: ds =>
    if !ds.isEmpty ∧ ds.all Char.isDigit then .ok (digitsToNat ds : ℤ)
    else .error .valueError
  | ds =>
    if !ds.isEmpty ∧ ds.all Char.isDigit then .ok (digitsToNat ds : ℤ)
    else .error .valueError

/-- Python `int(value)` as used by `obj[int(idx)]`. -/
def pyToInt : Value → Except PyErr ℤ
  | .int n => .ok n
  | .float q => .ok (ratTrunc q)
  | .bool b => .ok (if b then 1 else 0)
  | .str s => parseIntStr s
  | _ => .error .typeError

/-- Python list indexing with negative-index support; out of range is an
IndexError (`Option.none`). -/
def pyListGet (xs : List Value) (n : ℤ) : Option Value :=
  let len : ℤ := xs.length
  if 0 ≤ n ∧ n < len then xs.get? n.toNat
  else if -len ≤ n ∧ n < 0 then xs.get? (n + len).toNat
  else Option.none

/-- Python unary minus. -/
def pyNeg : Value → Option Value
  | .int n => some (.int (-n))
  | .float q => some (.float (-q))
  | .bool b => some (.int (-(if b then 1 else 0)))
  | _ => Option.none

/-- `hasattr(iterable, '__iter__')` plus the iteration itself: lists
yield elements, strings their characters, dicts their keys; everything
else is not iterable. -/
def iterElems : Value → Option (List Value)
  | .list xs => some xs
  | .str s => some (s.data.map (fun c => .str (String.mk [c])))
  | .dict kvs => some (kvs.map (fun kv => .str kv.1))
  | _ => Option.none

/-! ## Scope save/restore for user-function calls -/

/-- Bind evaluated arguments under their parameter names into the shared
scope (`enumerate` with the `i < len(args)` guard is a zip). -/
def bindParams : List (ParamDecl × Value) → InterpState → InterpState
  | [], s => s
  | (p, v) :: rest, s =>
    bindParams rest (setVar s p.name { ty := p.type_name.getD "auto", value := v })

/-- After the body: each parameter name is restored from the saved scope
copy, or deleted if it was not previously bound. -/
def restoreParams (params : List ParamDecl) (saved : String → Option Binding)
    (s : InterpState) : InterpState :=
  match params with
  | [] => s
  | p :: rest =>
    match saved p.name with
    | some b => restoreParams rest saved (setVar s p.name b)
    | Option.none =>
      restoreParams rest saved
        (if (s.scope p.name).isSome then delVar s p.name else s)

/-! ## The interpreter core

One mutually recursive block over an explicit fuel counter; every entry
checks and decrements the fuel, so the recursion is structural and runs
of concrete programs reduce definitionally.  `outOfFuel` marks only the
call depths at which CPython itself would still be recursing. -/

mutual

def evalExpr (fuel : ℕ) (s : InterpState) (e : Expr) :
    Except PyErr (Value × InterpState) :=
  match fuel with
  | 0 => .error .outOfFuel
  | fuel + 1 =>
    match e with
    | .lit v _ => .ok (v, s)
    | .listLit es =>
      match evalList fuel s es with
      | .error err => .error err
      | .ok (vs, s1) => .ok (.list vs, s1)
    | .ctorCall type_name fvs =>
      match createInstance fuel s type_name with
      | .error err => .error err
      | .ok (inst, s1) =>
        match evalFieldInits fuel s1 inst fvs with
        | .error err => .error err
        | .ok (inst2, s2) =>
          let s3 := logMsg ("[Constructor] Created " ++ type_name ++ ": " ++
                      pyStr (.dict inst2)) s2
          .ok (.dict inst2, s3)
    | .indexAccess oe ie =>
      match evalExpr fuel s oe with
      | .error err => .error err
      | .ok (obj, s1) =>
        match evalExpr fuel s1 ie with
        | .error err => .error err
        | .ok (idx, s2) =>
          match obj with
          | .list xs =>
            match pyToInt idx with
            | .error err => .error err
            | .ok n =>
              match pyListGet xs n with
              | some v => .ok (v, s2)
              | Option.none => .error .indexError
          | .dict kvs =>
            match idx with
            | .str key =>
              match lookupAssoc kvs key with
              | some v => .ok (v, s2)
              | Option.none => .error .keyError
            | _ => .error .keyError
          | _ => .ok (Value.none, s2)
    | .unaryOp op oe =>
      match evalExpr fuel s oe with
      | .error err => .error err
      | .ok (v, s1) =>
        if op = "-" then
          match pyNeg v with
          | some v2 => .ok (v2, s1)
          | Option.none => .error .typeError
        else if op = "not" then .ok (.bool (!truthy v), s1)
        else .ok (v, s1)
    | .ident name =>
      if hasChar name '.' then .ok (resolveMember s name, s)
      else
        match s.scope name with
        | some b => .ok (b.value, s)
        | Option.none => .ok (.str name, s)
    | .funcCall name argEs =>
      match evalList fuel s argEs with
      | .error err => .error err
      | .ok (args, s1) =>
        match s1.user_functions name with
        | some fd => callUserFunction fuel fd args s1
        | Option.none =>
          if hasChar name '.' then .ok (dottedCall s1 name args, s1)
          else .ok (Value.none, s1)
    | .binaryOp le op re =>
      match evalExpr fuel s le with
      | .error err => .error err
      | .ok (lv, s1) =>
        match evalExpr fuel s1 re with
        | .error err => .error err
        | .ok (rv, s2) => .ok (evalBinary lv op rv, s2)

def evalList (fuel : ℕ) (s : InterpState) (es : List Expr) :
    Except PyErr (List Value × InterpState) :=
  match fuel with
  | 0 => .error .outOfFuel
  | fuel + 1 =>
    match es with
    | [] => .ok ([], s)
    | e :: rest =>
      match evalExpr fuel s e with
      | .error err => .error err
      | .ok (v, s1) =>
        match evalList fuel s1 rest with
        | .error err => .error err
        | .ok (vs, s2) => .ok (v :: vs, s2)

def evalFieldInits (fuel : ℕ) (s : InterpState) (inst : List (String × Value))
    (fvs : List (String × Expr)) :
    Except PyErr (List (String × Value) × InterpState) :=
  match fuel with
  | 0 => .error .outOfFuel
  | fuel + 1 =>
    match fvs with
    | [] => .ok (inst, s)
    | (fname, fe) :: rest =>
      match evalExpr fuel s fe with
      | .error err => .error err
      | .ok (v, s1) => evalFieldInits fuel s1 (dictSet inst fname v) rest

def initFields (fuel : ℕ) (s : InterpState) (inst : List (String × Value))
    (fields : List FieldDecl) :
    Except PyErr (List (String × Value) × InterpState) :=
  match fuel with
  | 0 => .error .outOfFuel
  | fuel + 1 =>
    match fields with
    | [] => .ok (inst, s)
    | fd :: rest =>
      match fd.default_value with
      | some de =>
        match evalExpr fuel s de with
        | .error err => .error err
        | .ok (v, s1) => initFields fuel s1 (dictSet inst fd.name v) rest
      | Option.none => initFields fuel s (dictSet inst fd.name Value.none) rest

def createInstance (fuel : ℕ) (s : InterpState) (type_name : String) :
    Except PyErr (List (String × Value) × InterpState) :=
  match fuel with
  | 0 => .error .outOfFuel
  | fuel + 1 =>
    match s.user_types type_name with
    | Option.none => .ok ([], s)
    | some td =>
      let inst0 := [("__type__", Value.str type_name)]
      match
        (match td.parent with
         | some pn =>
           if (s.user_types pn).isSome then
             match createInstance fuel s pn with
             | .error err => .error err
             | .ok (pkvs, s1) => .ok (dictUpdate inst0 pkvs, s1)
           else .ok (inst0, s)
         | Option.none => .ok (inst0, s) :
          Except PyErr (List (String × Value) × InterpState)) with
      | .error err => .error err
      | .ok (inst1, s1) =>
        match initFields fuel s1 inst1 td.fields with
        | .error err => .error err
        | .ok (inst2, s2) => .ok (dictSet inst2 "__type__" (.str type_name), s2)

def callUserFunction (fuel : ℕ) (fd : FunctionDef) (args : List Value)
    (s : InterpState) : Except PyErr (Value × InterpState) :=
  match fuel with
  | 0 => .error .outOfFuel
  | fuel + 1 =>
    let saved := s.scope
    let s1 := bindParams (fd.params.zip args) s
    match execBlock fuel s1 fd.body with
    | .error err => .error err
    | .ok (sig, s2) =>
      let result := match sig with | .ret v => v | .next => Value.none
      .ok (result, restoreParams fd.params saved s2)

def execStmt (fuel : ℕ) (s : InterpState) (st : Stmt) :
    Except PyErr (Sig × InterpState) :=
  match fuel with
  | 0 => .error .outOfFuel
  | fuel + 1 =>
    match st with
    | .track target using_kae =>
      match execTrack s target using_kae with
      | .error err => .error err
      | .ok s1 => .ok (.next, s1)
    | .administer d a u => .ok (.next, execAdminister s d a u)
    | .ifS c tb eb =>
      match evalExpr fuel s c with
      | .error err => .error err
      | .ok (res, s1) =>
        let s2 := logMsg ("[If] condition -> " ++ pyStr res) s1
        if truthy res then execBlock fuel s2 tb
        else
          match eb with
          | some es => execBlock fuel s2 es
          | Option.none => .ok (.next, s2)
    | .letS name type_name ve =>
      match evalExpr fuel s ve with
      | .error err => .error err
      | .ok (v, s1) =>
        let s2 := setVar s1 name { ty := type_name.getD "auto", value := v }
        let s3 := logMsg ("[Let] " ++ name ++ " = " ++ pyStr v) s2
        .ok (.next, addEvent (.letEvent name v) s3)
    | .whileS c b =>
      match whileLoop fuel c b 0 s with
      | .error err => .error err
      | .ok ((.ret v, _), s1) => .ok (.ret v, s1)
      | .ok ((.next, iters), s1) =>
        .ok (.next, logMsg ("[While] Completed after " ++ toString iters ++
               " iterations") s1)
    | .forEach var ie b =>
      match evalExpr fuel s ie with
      | .error err => .error err
      | .ok (itv, s1) =>
        match iterElems itv with
        | Option.none =>
          .ok (.next, logMsg "[ForEach] Error: expression is not iterable" s1)
        | some items =>
          match forLoop fuel var b items 0 s1 with
          | .error err => .error err
          | .ok ((.ret v, _), s2) => .ok (.ret v, s2)
          | .ok ((.next, count), s2) =>
            let s3 := logMsg ("[ForEach] Iterated " ++ toString count ++ " items") s2
            .ok (.next, addEvent (.forEachEvent var count) s3)
    | .assess t c =>
      match execAssess s t c with
      | .error err => .error err
      | .ok s1 => .ok (.next, s1)
    | .alert me sev =>
      match evalExpr fuel s me with
      | .error err => .error err
      | .ok (msg, s1) =>
        let icon := if sev = "critical" then "🚨"
                    else if sev = "warning" then "⚠️"
                    else if sev = "info" then "ℹ️" else "🔔"
        let s2 := logMsg ("[Alert] " ++ icon ++ " [" ++ upStr sev ++ "] " ++
                    pyStr msg) s1
        .ok (.next, addEvent (.alert msg sev) s2)
    | .ret ve =>
      match ve with
      | some e =>
        match evalExpr fuel s e with
        | .error err => .error err
        | .ok (v, s1) => .ok (.ret v, s1)
      | Option.none => .ok (.ret Value.none, s)
    | .exprS e =>
      match evalExpr fuel s e with
      | .error err => .error err
      | .ok (_, s1) => .ok (.next, s1)

def execBlock (fuel : ℕ) (s : InterpState) (stmts : List Stmt) :
    Except PyErr (Sig × InterpState) :=
  match fuel with
  | 0 => .error .outOfFuel
  | fuel + 1 =>
    match stmts with
    | [] => .ok (.next, s)
    | st :: rest =>
      match execStmt fuel s st with
      | .error err => .error err
      | .ok (.ret v, s1) => .ok (.ret v, s1)
      | .ok (.next, s1) => execBlock fuel s1 rest

def whileLoop (fuel : ℕ) (c : Expr) (b : List Stmt) (iterations : ℕ)
    (s : InterpState) : Except PyErr ((Sig × ℕ) × InterpState) :=
  match fuel with
  | 0 => .error .outOfFuel
  | fuel + 1 =>
    match evalExpr fuel s c with
    | .error err => .error err
    | .ok (cv, s1) =>
      if truthy cv then
        if iterations ≥ MAX_LOOP_ITERATIONS then
          .ok ((.next, iterations),
            logMsg ("[While] Safety limit: loop exceeded " ++
              toString MAX_LOOP_ITERATIONS ++ " iterations") s1)
        else
          match execBlock fuel s1 b with
          | .error err => .error err
          | .ok (.ret v, s2) => .ok ((.ret v, iterations), s2)
          | .ok (.next, s2) => whileLoop fuel c b (iterations + 1) s2
      else .ok ((.next, iterations), s1)

def forLoop (fuel : ℕ) (var : String) (b : List Stmt) (items : List Value)
    (count : ℕ) (s : InterpState) : Except PyErr ((Sig × ℕ) × InterpState) :=
  match fuel with
  | 0 => .error .outOfFuel
  | fuel + 1 =>
    match items with
    | [] => .ok ((.next, count), s)
    | item :: rest =>
      if count ≥ MAX_LOOP_ITERATIONS then
        .ok ((.next, count), logMsg "[ForEach] Safety limit reached" s)
      else
        let s1 := setVar s var { ty := "auto", value := item }
        match execBlock fuel s1 b with
        | .error err => .error err
        | .ok (.ret v, s2) => .ok ((.ret v, count), s2)
        | .ok (.next, s2) => forLoop fuel var b rest (count + 1) s2

end

/-! ## Program-level execution -/

/-- Bind protocol inputs: an unbound "Patient"-typed input gets the
default patient; an input of a registered custom type gets a fresh
default instance (unconditionally), and other types are skipped. -/
def bindInputs (fuel : ℕ) (s : InterpState) :
    List VariableDecl → Except PyErr InterpState
  | [] => .ok s
  | inp :: rest =>
    if inp.type_name = "Patient" then
      let s1 :=
        if (s.scope inp.name).isSome then s
        else setVar s inp.name { ty := "Patient", value := defaultPatient }
      bindInputs fuel s1 rest
    else if (s.user_types inp.type_name).isSome then
      match createInstance fuel s inp.type_name with
      | .error err => .error err
      | .ok (kvs, s1) =>
        bindInputs fuel
          (setVar s1 inp.name { ty := inp.type_name, value := .dict kvs }) rest
    else bindInputs fuel s rest

/-- `execute_protocol`. -/
def execProtocol (fuel : ℕ) (s : InterpState) (proto : ProtocolDef) :
    Except PyErr (Sig × InterpState) :=
  let s1 := logMsg ("[Protocol] Executing: " ++ proto.name) s
  match bindInputs fuel s1 proto.inputs with
  | .error err => .error err
  | .ok s2 => execBlock fuel s2 proto.body

/-- How a whole run can abort: an uncaught runtime exception, or a
ReturnException unwinding out of a protocol body (nothing above a
protocol catches it). -/
inductive RunError where
  | raised (e : PyErr)
  | returnEscape (v : Value)

def execProtocols (fuel : ℕ) (s : InterpState) :
    List ProtocolDef → Except RunError InterpState
  | [] => .ok s
  | p :: rest =>
    match execProtocol fuel s p with
    | .error err => .error (.raised err)
    | .ok (.ret v, _) => .error (.returnEscape v)
    | .ok (.next, s1) => execProtocols fuel s1 rest

def logImports (s : InterpState) : List String → InterpState
  | [] => s
  | path :: rest => logImports (logMsg ("[Import] " ++ path) s) rest

def registerTypes (s : InterpState) : List TypeDef → InterpState
  | [] => s
  | td :: rest =>
    let s1 := { s with user_types := fun n => if n = td.name then some td
                                              else s.user_types n }
    let msg := "[Type] Registered: " ++ td.name ++
      (match td.parent with
       | some p => " extends " ++ p
       | Option.none => "") ++
      " (" ++ toString td.fields.length ++ " fields)"
    registerTypes (logMsg msg s1) rest

def paramList : List ParamDecl → String
  | [] => ""
  | [p] => p.name
  | p :: rest => p.name ++ ", " ++ paramList rest

def registerFunctions (s : InterpState) : List FunctionDef → InterpState
  | [] => s
  | fd :: rest =>
    let s1 := { s with user_functions := fun n => if n = fd.name then some fd
                                                  else s.user_functions n }
    let msg := "[Function] Registered: " ++ fd.name ++ "(" ++
      paramList fd.params ++ ")"
    registerFunctions (logMsg msg s1) rest

/-- `MOISSCodeInterpreter.execute`: reset the event log, log imports,
register declarations, then run every protocol in order. -/
def execute (fuel : ℕ) (program : Program) (s0 : InterpState) :
    Except RunError InterpState :=
  let s := { s0 with runtime_events := [] }
  let s1 := logImports s program.imports
  let s2 := registerTypes s1 program.type_defs
  let s3 := registerFunctions s2 program.function_defs
  execProtocols fuel s3 program.protocols

/-- The event list `execute` returns on a completed run. -/
def executeEvents (fuel : ℕ) (program : Program) : Except RunError (List Event) :=
  match execute fuel program initState with
  | .error err => .error err
  | .ok s => .ok s.runtime_events

/-! # Claim verification

Concrete programs are written as the parser would emit them: numeric
literals are floats, dotted names are flattened identifier strings. -/

/-- Scenario C input: `protocol T { administer Norepinephrine dose: 15.0
mcg/kg/min; }` — dose 15.0 at/above the registered toxic bound 10.0,
unsafe mode off (the shipped interpreter never reads the flag). -/
def toxicProgram : Program :=
  { imports := [], type_defs := [], function_defs := [],
    protocols := [{ name := "T", inputs := [],
                    body := [.administer "Norepinephrine" 15 "mcg/kg/min"] }] }

/-- Scenario E input: `protocol A { let x = 1; } protocol B { let y = 2; }`. -/
def scenarioE : Program :=
  { imports := [], type_defs := [], function_defs := [],
    protocols :=
      [{ name := "A", inputs := [],
         body := [.letS "x" Option.none (.lit (.float 1) Option.none)] },
       { name := "B", inputs := [],
         body := [.letS "y" Option.none (.lit (.float 2) Option.none)] }] }

/-- Cross-protocol leak probe: `protocol A { let x = 1; } protocol B
{ let y = x; }` — if A's binding of `x` were out of scope during B, the
unbound-identifier fallback would bind `y` to the text "x". -/
def leakProgram : Program :=
  { imports := [], type_defs := [], function_defs := [],
    protocols :=
      [{ name := "A", inputs := [],
         body := [.letS "x" Option.none (.lit (.float 1) Option.none)] },
       { name := "B", inputs := [],
         body := [.letS "y" Option.none (.ident "x")] }] }

/-- Out-of-range index probe: `protocol T { let xs = [1]; let y = xs[5]; }`. -/
def indexProgram : Program :=
  { imports := [], type_defs := [], function_defs := [],
    protocols :=
      [{ name := "T", inputs := [],
         body := [.letS "xs" Option.none (.listLit [.lit (.float 1) Option.none]),
                  .letS "y" Option.none
                    (.indexAccess (.ident "xs") (.lit (.float 5) Option.none))] }] }

def isLetEvent : Event → Bool
  | .letEvent _ _ => true
  | _ => false

/-- Evaluating `MOISS_classify` at the fixed call the interpreter makes
for Norepinephrine (time-to-criticality 5.0, onset 1.0: delta 4.0 > 1.0). -/
theorem classify_norepinephrine : MOISS_classify 5 "Norepinephrine" = "PROPHYLACTIC" := by
  norm_num [MOISS_classify, classifyWith, classifyCore, get_profile, lookupDrug,
            DRUG_DATABASE, drugDB1, drugDB2, drugDB3, drugDB4, drugDB5, drugDB6]

/-- C1: the claim (and the repository's own tests
`test_administer_toxic_dose_raises` / `test_administer_safe_dose`)
requires the dose-validation rule to run on every administer statement,
raising on a toxic dose outside unsafe mode and recording the outcome in
the ADMINISTER event.  As shipped, `execute_administer` performs no dose
validation at all: on Scenario C's toxic input (dose 15.0 ≥ toxic bound
10.0, unsafe off) execution completes without raising, one ADMINISTER
event is emitted, and the event carries only drug, formatted dose, and
MOISS classification — no validation outcome field exists. -/
theorem c1_administer_performs_no_validation :
    executeEvents 10 toxicProgram =
      .ok [.log "[Protocol] Executing: T",
           .log "[Administer] Norepinephrine 15.0 mcg/kg/min | MOISS: PROPHYLACTIC",
           .administer "Norepinephrine" "15.0 mcg/kg/min" "PROPHYLACTIC"] := by
  simp only [executeEvents, execute, execProtocols, execProtocol, execBlock,
             execStmt, execAdminister, bindInputs, logImports, registerTypes,
             registerFunctions, logMsg, addEvent, classify_norepinephrine,
             toxicProgram]
  rfl

/-- C2 counterexample: running the leak probe shows that a name bound in
protocol A IS in scope while protocol B executes — `let y = x;` in B
binds `y` to A's value 1.0 (an out-of-scope `x` would have degraded to
the string "x"), and `x` is still bound when the run ends.  The scope is
one shared mapping that `execute_protocol` never resets. -/
theorem c2_counterexample_binding_leaks_across_protocols :
    (execute 10 leakProgram initState).map
        (fun st => (st.runtime_events, (st.scope "x").isSome)) =
      .ok ([.log "[Protocol] Executing: A", .log "[Let] x = 1.0",
            .letEvent "x" (.float 1),
            .log "[Protocol] Executing: B", .log "[Let] y = 1.0",
            .letEvent "y" (.float 1)], true) := rfl

/-- C2 amended: Scenario E emits exactly two LET events in program
order, but protocol scopes are not isolated: the interpreter keeps one
shared scope across protocols, so both bindings persist after the run
(rather than each scope living only for its protocol's execution). -/
theorem c2_amended_two_let_events_shared_scope :
    (execute 10 scenarioE initState).map
        (fun st => (st.runtime_events.filter isLetEvent,
                    (st.scope "x").isSome, (st.scope "y").isSome)) =
      .ok ([.letEvent "x" (.float 1), .letEvent "y" (.float 2)], true, true) := rfl

/-- C3 counterexample: an out-of-range list index is NOT degraded to a
neutral value — `protocol T { let xs = [1]; let y = xs[5]; }` aborts the
whole run with an uncaught IndexError, so toxic doses and lex/syntax
errors are not the only aborting conditions. -/
theorem c3_counterexample_index_error_aborts :
    executeEvents 10 indexProgram = .error (.raised .indexError) := rfl

/-- C3 amended: the listed soft anomalies other than index accesses do
degrade: a ForEach over a non-iterable value logs an error event and
falls through; a binary operator whose raw table entry raises (a type
mismatch) degrades to Python False rather than propagating; administer
statements never raise, for registered and unknown drugs alike; and a
track over an unresolved path never raises.  (Index accesses are the
exception — see the counterexample.) -/
theorem c3_amended_soft_anomalies_degrade (fuel : ℕ) (s s1 : InterpState)
    (x : String) (e : Expr) (b : List Stmt) (v : Value)
    (h1 : evalExpr fuel s e = .ok (v, s1))
    (h2 : iterElems v = Option.none) :
    execStmt (fuel + 1) s (.forEach x e b) =
      .ok (.next, logMsg "[ForEach] Error: expression is not iterable" s1)
    ∧ (∀ lv op rv, evalBinaryRaw lv op rv = Option.none →
         evalBinary lv op rv = .bool false)
    ∧ (∀ s2 d a u, execStmt (fuel + 1) s2 (.administer d a u) =
         .ok (.next, execAdminister s2 d a u))
    ∧ (∀ s2 t, execStmt (fuel + 1) s2 (.track t false) =
         .ok (.next, addEvent (.track t (resolveMember s2 t))
                (logMsg ("[Track] " ++ t ++ " = " ++ pyStr (resolveMember s2 t)) s2))) := by
  refine ⟨?_, ?_, ?_, ?_⟩
  · simp only [execStmt, h1, h2]
  · intro lv op rv h
    simp only [evalBinary, h]
  · intro s2 d a u
    simp only [execStmt]
  · intro s2 t
    simp [execStmt, execTrack]

theorem c3_amended_witness :
    execStmt 4 initState (.forEach "i" (.lit (.float 7) Option.none) []) =
      .ok (.next, logMsg "[ForEach] Error: expression is not iterable" initState)
    ∧ (∀ lv op rv, evalBinaryRaw lv op rv = Option.none →
         evalBinary lv op rv = .bool false)
    ∧ (∀ s2 d a u, execStmt 4 s2 (.administer d a u) =
         .ok (.next, execAdminister s2 d a u))
    ∧ (∀ s2 t, execStmt 4 s2 (.track t false) =
         .ok (.next, addEvent (.track t (resolveMember s2 t))
                (logMsg ("[Track] " ++ t ++ " = " ++ pyStr (resolveMember s2 t)) s2))) :=
  c3_amended_soft_anomalies_degrade 3 initState initState "i"
    (.lit (.float 7) Option.none) [] (.float 7) rfl rfl

/-! ## C4: the Kalman step -/

/-- C4 counterexample: at the initial estimator state with measurement
10 and default reliability, the code's update differs from the spec's
stated step — the velocity gain divides the PRIOR covariance (100), not
the predicted one (100.1), through `S`. -/
theorem c4_counterexample_gain_uses_prior_covariance :
    kaeUpdate kaeInitState 10 1 ≠ kaeUpdatePerSpec kaeInitState 10 1 := by
  simp only [kaeUpdate, kaeUpdatePerSpec, kaeInitState, KAE_R0, KAE_Q0, KAE_dt]
  norm_num

/-- C4 amended: each update computes the claimed two-scalar step with
effective R = R0 / max(reliability, ε), EXCEPT that the velocity gain is
K2 = (p22_prior·dt)/(p11′+R) — the covariance entry read before the
predict step — rather than the spec's (p22′·dt)/(p11′+R).  All other
equations are as claimed. -/
theorem c4_amended_kalman_step (st : KState) (m rel : ℚ)
    (hS : st.p11 + KAE_dt ^ 2 * st.p22 + KAE_Q0 + KAE_R0 / max rel 0.0001 ≠ 0) :
    kaeUpdate st m rel =
      .ok { pos := (st.pos + st.vel * KAE_dt) +
                   ((st.p11 + KAE_dt ^ 2 * st.p22 + KAE_Q0) /
                     (st.p11 + KAE_dt ^ 2 * st.p22 + KAE_Q0 + KAE_R0 / max rel 0.0001)) *
                   (m - (st.pos + st.vel * KAE_dt)),
            vel := st.vel +
                   (st.p22 * KAE_dt /
                     (st.p11 + KAE_dt ^ 2 * st.p22 + KAE_Q0 + KAE_R0 / max rel 0.0001)) *
                   (m - (st.pos + st.vel * KAE_dt)),
            p11 := (1 - (st.p11 + KAE_dt ^ 2 * st.p22 + KAE_Q0) /
                     (st.p11 + KAE_dt ^ 2 * st.p22 + KAE_Q0 + KAE_R0 / max rel 0.0001)) *
                   (st.p11 + KAE_dt ^ 2 * st.p22 + KAE_Q0),
            p22 := (1 - st.p22 * KAE_dt /
                     (st.p11 + KAE_dt ^ 2 * st.p22 + KAE_Q0 + KAE_R0 / max rel 0.0001) *
                     KAE_dt) *
                   (st.p22 + KAE_Q0) } := by
  have hmax : (if rel < (0.0001 : ℚ) then (0.0001 : ℚ) else rel) = max rel 0.0001 := by
    rcases le_or_lt (0.0001 : ℚ) rel with h | h
    · rw [if_neg (not_lt.mpr h), max_eq_left h]
    · rw [if_pos h, max_eq_right h.le]
  simp only [kaeUpdate, hmax]
  rw [if_neg hS]

theorem c4_amended_witness :
    kaeUpdate kaeInitState 10 1 =
      .ok { pos := (kaeInitState.pos + kaeInitState.vel * KAE_dt) +
                   ((kaeInitState.p11 + KAE_dt ^ 2 * kaeInitState.p22 + KAE_Q0) /
                     (kaeInitState.p11 + KAE_dt ^ 2 * kaeInitState.p22 + KAE_Q0 +
                       KAE_R0 / max 1 0.0001)) *
                   (10 - (kaeInitState.pos + kaeInitState.vel * KAE_dt)),
            vel := kaeInitState.vel +
                   (kaeInitState.p22 * KAE_dt /
                     (kaeInitState.p11 + KAE_dt ^ 2 * kaeInitState.p22 + KAE_Q0 +
                       KAE_R0 / max 1 0.0001)) *
                   (10 - (kaeInitState.pos + kaeInitState.vel * KAE_dt)),
            p11 := (1 - (kaeInitState.p11 + KAE_dt ^ 2 * kaeInitState.p22 + KAE_Q0) /
                     (kaeInitState.p11 + KAE_dt ^ 2 * kaeInitState.p22 + KAE_Q0 +
                       KAE_R0 / max 1 0.0001)) *
                   (kaeInitState.p11 + KAE_dt ^ 2 * kaeInitState.p22 + KAE_Q0),
            p22 := (1 - kaeInitState.p22 * KAE_dt /
                     (kaeInitState.p11 + KAE_dt ^ 2 * kaeInitState.p22 + KAE_Q0 +
                       KAE_R0 / max 1 0.0001) *
                     KAE_dt) *
                   (kaeInitState.p22 + KAE_Q0) } :=
  c4_amended_kalman_step kaeInitState 10 1
    (by rw [show max (1 : ℚ) 0.0001 = 1 from max_eq_left (by norm_num)]
        norm_num [kaeInitState, KAE_dt, KAE_Q0, KAE_R0])

/-! ## C5: the classifier boundary law -/

/-- Branch characterization of the classifier chain: each tier holds
exactly on its claimed half-open interval, for every onset (the earlier
branch conditions are implied away by pure linear arithmetic). -/
theorem classifyCore_cases (O t : ℚ) :
    (classifyCore O t = "PROPHYLACTIC" ↔ t - O > O)
    ∧ (classifyCore O t = "ON_TIME" ↔ (0 < t - O ∧ t - O ≤ O))
    ∧ (classifyCore O t = "PARTIAL" ↔ (-0.25 * O < t - O ∧ t - O ≤ 0))
    ∧ (classifyCore O t = "MARGINAL" ↔
         (-0.5 * O < t - O ∧ t - O ≤ -0.25 * O))
    ∧ (classifyCore O t = "FUTILE" ↔
         (-1.0 * O < t - O ∧ t - O ≤ -0.5 * O))
    ∧ (classifyCore O t = "TOO_LATE" ↔
         (¬(t - O > O) ∧ ¬(0 < t - O ∧ t - O ≤ O) ∧
          ¬(-0.25 * O < t - O ∧ t - O ≤ 0) ∧
          ¬(-0.5 * O < t - O ∧ t - O ≤ -0.25 * O) ∧
          ¬(-1.0 * O < t - O ∧ t - O ≤ -0.5 * O))) := by
  simp only [classifyCore]
  split_ifs with h1 h2 h3 h4 h5 <;>
    refine ⟨?_, ?_, ?_, ?_, ?_, ?_⟩ <;> simp_all <;>
    intro hx <;> (try obtain ⟨hy, hz⟩ := h2) <;> linarith

/-- C5: for every drug (onset O from the registry, fallback 30 when
unknown) and every time-to-criticality t, the classifier's six tiers
hold exactly on the claimed closed-above/open-below delta intervals,
with delta = t − O. -/
theorem c5_classifier_boundary_law (drug : String) (t : ℚ) :
    (MOISS_classify t drug = "PROPHYLACTIC" ↔ t - onsetOf drug > onsetOf drug)
    ∧ (MOISS_classify t drug = "ON_TIME" ↔
         (0 < t - onsetOf drug ∧ t - onsetOf drug ≤ onsetOf drug))
    ∧ (MOISS_classify t drug = "PARTIAL" ↔
         (-0.25 * onsetOf drug < t - onsetOf drug ∧ t - onsetOf drug ≤ 0))
    ∧ (MOISS_classify t drug = "MARGINAL" ↔
         (-0.5 * onsetOf drug < t - onsetOf drug ∧
          t - onsetOf drug ≤ -0.25 * onsetOf drug))
    ∧ (MOISS_classify t drug = "FUTILE" ↔
         (-1.0 * onsetOf drug < t - onsetOf drug ∧
          t - onsetOf drug ≤ -0.5 * onsetOf drug))
    ∧ (MOISS_classify t drug = "TOO_LATE" ↔
         (¬(t - onsetOf drug > onsetOf drug) ∧
          ¬(0 < t - onsetOf drug ∧ t - onsetOf drug ≤ onsetOf drug) ∧
          ¬(-0.25 * onsetOf drug < t - onsetOf drug ∧ t - onsetOf drug ≤ 0) ∧
          ¬(-0.5 * onsetOf drug < t - onsetOf drug ∧
            t - onsetOf drug ≤ -0.25 * onsetOf drug) ∧
          ¬(-1.0 * onsetOf drug < t - onsetOf drug ∧
            t - onsetOf drug ≤ -0.5 * onsetOf drug))) := by
  have h : MOISS_classify t drug = classifyCore (onsetOf drug) t := by
    unfold MOISS_classify classifyWith onsetOf
    cases get_profile drug <;> rfl
  rw [h]
  exact classifyCore_cases (onsetOf drug) t

/-! ## C6: the while-loop iteration cap -/

/-- If the condition always evaluates truthy without touching the state
and the body always falls through acting as `step`, the loop runs to the
cap: starting `k` iterations below it, it performs exactly `k` body
executions, logs the safety-limit diagnostic, and reports the cap as its
iteration count. -/
theorem whileLoop_caps (c : Expr) (b : List Stmt) (condv : InterpState → Value)
    (step : InterpState → InterpState)
    (hc : ∀ f s, evalExpr (f + 1) s c = .ok (condv s, s) ∧ truthy (condv s) = true)
    (hb : ∀ f s, execBlock (f + 1) s b = .ok (.next, step s)) :
    ∀ (k f it : ℕ) (s : InterpState), it + k = MAX_LOOP_ITERATIONS →
      whileLoop (f + k + 2) c b it s =
        .ok ((.next, MAX_LOOP_ITERATIONS),
          logMsg ("[While] Safety limit: loop exceeded " ++
            toString MAX_LOOP_ITERATIONS ++ " iterations") (step^[k] s)) := by
  intro k
  induction k with
  | zero =>
    intro f it s hit
    have hit' : it = MAX_LOOP_ITERATIONS := by omega
    subst hit'
    have hceq : evalExpr (f + 1) s c = .ok (condv s, s) := (hc f s).1
    have hct : truthy (condv s) = true := (hc f s).2
    show whileLoop ((f + 1) + 1) c b MAX_LOOP_ITERATIONS s = _
    rw [whileLoop]
    simp [hceq, hct]
  | succ k ih =>
    intro f it s hit
    have hceq : evalExpr (f + k + 2) s c = .ok (condv s, s) := (hc (f + k + 1) s).1
    have hct : truthy (condv s) = true := (hc (f + k + 1) s).2
    have hbeq : execBlock (f + k + 2) s b = .ok (.next, step s) := hb (f + k + 1) s
    have hlt : ¬ it ≥ MAX_LOOP_ITERATIONS := by
      unfold MAX_LOOP_ITERATIONS at hit ⊢
      omega
    show whileLoop ((f + k + 2) + 1) c b it s = _
    rw [whileLoop]
    simp only [hceq, hct, if_true, hbeq, if_neg hlt]
    rw [ih f (it + 1) (step s) (by omega), Function.iterate_succ_apply]

/-- C6: a while statement whose condition always evaluates truthy
(leaving the state unchanged) and whose body always falls through
terminates at the cap: the body runs exactly 1000 times, the safety
diagnostic is logged rather than raised, a completion log with the
iteration count 1000 is emitted, and control falls through normally. -/
theorem c6_while_always_truthy_caps (c : Expr) (b : List Stmt)
    (condv : InterpState → Value) (step : InterpState → InterpState)
    (hc : ∀ f s, evalExpr (f + 1) s c = .ok (condv s, s) ∧ truthy (condv s) = true)
    (hb : ∀ f s, execBlock (f + 1) s b = .ok (.next, step s))
    (f : ℕ) (s : InterpState) :
    execStmt (f + 1003) s (.whileS c b) =
      .ok (.next,
        logMsg "[While] Completed after 1000 iterations"
          (logMsg "[While] Safety limit: loop exceeded 1000 iterations"
            (step^[1000] s))) := by
  have hcap : whileLoop (f + 1002) c b 0 s =
      .ok ((.next, MAX_LOOP_ITERATIONS),
        logMsg ("[While] Safety limit: loop exceeded " ++
          toString MAX_LOOP_ITERATIONS ++ " iterations") (step^[1000] s)) :=
    whileLoop_caps c b condv step hc hb 1000 f 0 s (by norm_num [MAX_LOOP_ITERATIONS])
  show execStmt ((f + 1002) + 1) s (.whileS c b) = _
  simp only [execStmt, hcap]
  rfl

theorem c6_witness :
    execStmt 1003 initState (.whileS (.lit (.bool true) Option.none) []) =
      .ok (.next,
        logMsg "[While] Completed after 1000 iterations"
          (logMsg "[While] Safety limit: loop exceeded 1000 iterations"
            ((fun st => st)^[1000] initState))) :=
  c6_while_always_truthy_caps (.lit (.bool true) Option.none) []
    (fun _ => .bool true) (fun st => st)
    (fun _ _ => ⟨rfl, rfl⟩) (fun _ _ => rfl) 0 initState

/-! ## C7: parameter save/restore around user-function calls -/

/-- Names no parameter carries are untouched by the restore pass. -/
theorem restoreParams_untouched (params : List ParamDecl)
    (saved : String → Option Binding) (s : InterpState) (n : String)
    (h : ∀ p ∈ params, p.name ≠ n) :
    (restoreParams params saved s).scope n = s.scope n := by
  induction params generalizing s with
  | nil => rfl
  | cons p rest ih =>
    have hp : ¬ (n = p.name) := fun hh => h p (List.mem_cons_self p rest) hh.symm
    have hrest : ∀ q ∈ rest, q.name ≠ n := fun q hq => h q (List.mem_cons_of_mem p hq)
    simp only [restoreParams]
    cases hs : saved p.name with
    | some b => rw [ih _ hrest]; simp [setVar, hp]
    | none =>
      by_cases hi : (s.scope p.name).isSome
      · rw [if_pos hi, ih _ hrest]; simp [delVar, hp]
      · rw [if_neg hi, ih _ hrest]

/-- Every parameter name ends up restored to its saved binding (or
absent when it had none). -/
theorem restoreParams_restores (params : List ParamDecl)
    (saved : String → Option Binding) (s : InterpState) (nm : String)
    (h : ∃ p ∈ params, p.name = nm) :
    (restoreParams params saved s).scope nm = saved nm := by
  induction params generalizing s with
  | nil =>
    obtain ⟨p, hp, _⟩ := h
    exact absurd hp (List.not_mem_nil p)
  | cons p rest ih =>
    by_cases hr : ∃ q ∈ rest, q.name = nm
    · simp only [restoreParams]
      cases hs : saved p.name with
      | some b => exact ih _ hr
      | none =>
        by_cases hi : (s.scope p.name).isSome
        · rw [if_pos hi]; exact ih _ hr
        · rw [if_neg hi]; exact ih _ hr
    · have hnm : p.name = nm := by
        obtain ⟨q, hq, hqn⟩ := h
        rcases List.mem_cons.mp hq with rfl | hq2
        · exact hqn
        · exact absurd ⟨q, hq2, hqn⟩ hr
      have hother : ∀ q ∈ rest, q.name ≠ nm := fun q hq hqe => hr ⟨q, hq, hqe⟩
      simp only [restoreParams]
      cases hs : saved p.name with
      | some b =>
        rw [restoreParams_untouched rest saved _ nm hother]
        rw [← hnm, hs]
        simp [setVar]
      | none =>
        by_cases hi : (s.scope p.name).isSome
        · rw [if_pos hi, restoreParams_untouched rest saved _ nm hother]
          rw [← hnm, hs]
          simp [delVar]
        · rw [if_neg hi, restoreParams_untouched rest saved _ nm hother]
          rw [← hnm, hs]
          exact Option.not_isSome_iff_eq_none.mp hi

/-- C7: after a user-function call, each parameter name carries exactly
the binding it had before the call (restored, or removed when there was
none); non-parameter names keep whatever the body left in the shared
scope; and a Return inside the body unwinds to the call boundary with
its value as the call's result (falling off the body yields None). -/
theorem c7_user_call_restores_parameters (fuel : ℕ) (fd : FunctionDef)
    (args : List Value) (s smid : InterpState) (sig : Sig)
    (h : execBlock fuel (bindParams (fd.params.zip args) s) fd.body = .ok (sig, smid)) :
    callUserFunction (fuel + 1) fd args s =
      .ok ((match sig with | .ret v => v | .next => Value.none),
           restoreParams fd.params s.scope smid)
    ∧ (∀ nm, (∃ p ∈ fd.params, p.name = nm) →
         (restoreParams fd.params s.scope smid).scope nm = s.scope nm)
    ∧ (∀ nm, (∀ p ∈ fd.params, p.name ≠ nm) →
         (restoreParams fd.params s.scope smid).scope nm = smid.scope nm) := by
  refine ⟨?_, ?_, ?_⟩
  · rw [callUserFunction]
    simp only [h]
    cases sig <;> rfl
  · intro nm hnm
    exact restoreParams_restores fd.params s.scope smid nm hnm
  · intro nm hnm
    exact restoreParams_untouched fd.params s.scope smid nm hnm

/-- The identity function `function idf(a) { return a; }`. -/
def idFunction : FunctionDef :=
  { name := "idf", params := [{ name := "a", type_name := Option.none }],
    body := [.ret (some (.ident "a"))], return_type := Option.none }

theorem c7_witness :
    callUserFunction 4 idFunction [.float 7] initState =
      .ok ((match Sig.ret (.float 7) with | .ret v => v | .next => Value.none),
           restoreParams idFunction.params initState.scope
             (bindParams (idFunction.params.zip [.float 7]) initState))
    ∧ (∀ nm, (∃ p ∈ idFunction.params, p.name = nm) →
         (restoreParams idFunction.params initState.scope
            (bindParams (idFunction.params.zip [.float 7]) initState)).scope nm =
           initState.scope nm)
    ∧ (∀ nm, (∀ p ∈ idFunction.params, p.name ≠ nm) →
         (restoreParams idFunction.params initState.scope
            (bindParams (idFunction.params.zip [.float 7]) initState)).scope nm =
           (bindParams (idFunction.params.zip [.float 7]) initState).scope nm) :=
  c7_user_call_restores_parameters 3 idFunction [.float 7] initState
    (bindParams (idFunction.params.zip [.float 7]) initState) (.ret (.float 7)) rfl

/-! ## C8: unit compatibility and conversion -/

/-- C8: two units are compatible exactly when textually identical, of
equal dimension after first-segment reduction, or when either is absent
from the dimension table; conversion is the identity on equal units,
multiplies by the table factor on a listed ordered pair, and raises (the
ValueError message) on every other pair. -/
theorem c8_unit_compatibility_and_conversion (u1 u2 : String) (v : ℚ) :
    (are_compatible u1 u2 = true ↔
       (u1 = u2 ∨ get_dimension u1 = Option.none ∨ get_dimension u2 = Option.none ∨
        get_dimension u1 = get_dimension u2))
    ∧ (u1 = u2 → convert v u1 u2 = .ok v)
    ∧ (∀ factor, u1 ≠ u2 → lookupConv CONVERSIONS (u1, u2) = some factor →
         convert v u1 u2 = .ok (v * factor))
    ∧ (u1 ≠ u2 → lookupConv CONVERSIONS (u1, u2) = Option.none →
         convert v u1 u2 = .error ("Cannot convert from " ++ u1 ++ " to " ++ u2)) := by
  refine ⟨?_, ?_, ?_, ?_⟩
  · unfold are_compatible
    by_cases h : u1 = u2
    · simp [h]
    · rw [if_neg h]
      cases h1 : get_dimension u1 <;> cases h2 : get_dimension u2 <;> simp_all
  · intro h
    simp [convert, h]
  · intro factor hne hf
    simp [convert, hne, hf]
  · intro hne hf
    simp [convert, hne, hf]

theorem c8_witness :
    (are_compatible "mg" "mcg" = true ↔
       ("mg" = "mcg" ∨ get_dimension "mg" = Option.none ∨
        get_dimension "mcg" = Option.none ∨
        get_dimension "mg" = get_dimension "mcg"))
    ∧ ("mg" = "mcg" → convert 7 "mg" "mcg" = .ok 7)
    ∧ (∀ factor, "mg" ≠ "mcg" →
         lookupConv CONVERSIONS ("mg", "mcg") = some factor →
         convert 7 "mg" "mcg" = .ok (7 * factor))
    ∧ ("mg" ≠ "mcg" → lookupConv CONVERSIONS ("mg", "mcg") = Option.none →
         convert 7 "mg" "mcg" = .error ("Cannot convert from " ++ "mg" ++ " to " ++ "mcg")) :=
  c8_unit_compatibility_and_conversion "mg" "mcg" 7

/-! ## C9: loose-failure name resolution -/

/-- Splitting on an absent separator yields the single whole string. -/
theorem pySplitAux_no_sep (sep : Char) (cs acc : List Char)
    (h : cs.contains sep = false) :
    pySplitAux sep cs acc = [String.mk (acc.reverse ++ cs)] := by
  induction cs generalizing acc with
  | nil => simp [pySplitAux]
  | cons c rest ih =>
    simp only [List.contains_cons, Bool.or_eq_false_iff] at h
    have hc : ¬ (c = sep) := by
      intro hh
      subst hh
      simp at h
    simp only [pySplitAux, if_neg hc]
    rw [ih _ h.2]
    simp

theorem pySplit_no_sep (s : String) (sep : Char) (h : hasChar s sep = false) :
    pySplit s sep = [s] := by
  unfold pySplit
  rw [pySplitAux_no_sep sep s.data [] h]
  simp

/-- C9: name resolution never aborts: an identifier whose head segment
is unbound evaluates without error — to the neutral zero when dotted, to
its own text when plain; the member-path resolver yields zero on an
unbound head; and any unresolvable interior segment also yields zero. -/
theorem c9_resolution_never_aborts (fuel : ℕ) (s : InterpState) (name : String)
    (h : s.scope ((pySplit name '.').headD name) = Option.none) :
    evalExpr (fuel + 1) s (.ident name) =
      .ok ((if hasChar name '.' then Value.int 0 else .str name), s)
    ∧ resolveMember s name = .int 0
    ∧ (∀ cur part rest, memberLookup cur part = Option.none →
         resolveParts cur (part :: rest) = .int 0) := by
  have hres : resolveMember s name = .int 0 := by
    unfold resolveMember
    cases hsp : pySplit name '.' with
    | nil => rfl
    | cons hd tl =>
      rw [hsp] at h
      simp only [List.headD_cons] at h
      simp [h]
  refine ⟨?_, hres, ?_⟩
  · by_cases hdot : hasChar name '.'
    · rw [evalExpr]
      simp [hdot, hres]
    · have hone : pySplit name '.' = [name] :=
        pySplit_no_sep name '.' (Bool.not_eq_true _ ▸ hdot)
      rw [hone] at h
      simp only [List.headD_cons] at h
      rw [evalExpr]
      simp [hdot, h]
  · intro cur part rest hmlk
    simp [resolveParts, hmlk]

theorem c9_witness :
    evalExpr 1 initState (.ident "a.b") =
      .ok ((if hasChar "a.b" '.' then Value.int 0 else .str "a.b"), initState)
    ∧ resolveMember initState "a.b" = .int 0
    ∧ (∀ cur part rest, memberLookup cur part = Option.none →
         resolveParts cur (part :: rest) = .int 0) :=
  c9_resolution_never_aborts 0 initState "a.b" rfl

/-! ## C10: total division -/

/-- C10: a '/' whose right operand evaluated to (int or float) zero
yields Python int 0 for any numeric left operand, instead of raising
ZeroDivisionError. -/
theorem c10_division_by_zero_yields_zero (fuel : ℕ) (s s1 s2 : InterpState)
    (le re : Expr) (lv rv : Value)
    (h1 : evalExpr fuel s le = .ok (lv, s1))
    (h2 : evalExpr fuel s1 re = .ok (rv, s2))
    (hnum : (asNumQ lv).isSome = true)
    (hz : rv = .int 0 ∨ rv = .float 0) :
    evalExpr (fuel + 1) s (.binaryOp le "/" re) = .ok (.int 0, s2) := by
  have hpe : pyEq rv (.int 0) = true := by
    rcases hz with rfl | rfl <;> rfl
  have hb : evalBinary lv "/" rv = .int 0 := by
    simp [evalBinary, evalBinaryRaw, hpe]
  rw [evalExpr]
  simp [h1, h2, hb]

theorem c10_witness :
    evalExpr 2 initState
        (.binaryOp (.lit (.float 3) Option.none) "/" (.lit (.float 0) Option.none)) =
      .ok (.int 0, initState) :=
  c10_division_by_zero_yields_zero 1 initState initState initState
    (.lit (.float 3) Option.none) (.lit (.float 0) Option.none)
    (.float 3) (.float 0) rfl rfl rfl (Or.inr rfl)

theorem c5_witness :
    (MOISS_classify 5 "Norepinephrine" = "PROPHYLACTIC" ↔
       5 - onsetOf "Norepinephrine" > onsetOf "Norepinephrine")
    ∧ (MOISS_classify 5 "Norepinephrine" = "ON_TIME" ↔
         (0 < 5 - onsetOf "Norepinephrine" ∧
          5 - onsetOf "Norepinephrine" ≤ onsetOf "Norepinephrine"))
    ∧ (MOISS_classify 5 "Norepinephrine" = "PARTIAL" ↔
         (-0.25 * onsetOf "Norepinephrine" < 5 - onsetOf "Norepinephrine" ∧
          5 - onsetOf "Norepinephrine" ≤ 0))
    ∧ (MOISS_classify 5 "Norepinephrine" = "MARGINAL" ↔
         (-0.5 * onsetOf "Norepinephrine" < 5 - onsetOf "Norepinephrine" ∧
          5 - onsetOf "Norepinephrine" ≤ -0.25 * onsetOf "Norepinephrine"))
    ∧ (MOISS_classify 5 "Norepinephrine" = "FUTILE" ↔
         (-1.0 * onsetOf "Norepinephrine" < 5 - onsetOf "Norepinephrine" ∧
          5 - onsetOf "Norepinephrine" ≤ -0.5 * onsetOf "Norepinephrine"))
    ∧ (MOISS_classify 5 "Norepinephrine" = "TOO_LATE" ↔
         (¬(5 - onsetOf "Norepinephrine" > onsetOf "Norepinephrine") ∧
          ¬(0 < 5 - onsetOf "Norepinephrine" ∧
            5 - onsetOf "Norepinephrine" ≤ onsetOf "Norepinephrine") ∧
          ¬(-0.25 * onsetOf "Norepinephrine" < 5 - onsetOf "Norepinephrine" ∧
            5 - onsetOf "Norepinephrine" ≤ 0) ∧
          ¬(-0.5 * onsetOf "Norepinephrine" < 5 - onsetOf "Norepinephrine" ∧
            5 - onsetOf "Norepinephrine" ≤ -0.25 * onsetOf "Norepinephrine") ∧
          ¬(-1.0 * onsetOf "Norepinephrine" < 5 - onsetOf "Norepinephrine" ∧
            5 - onsetOf "Norepinephrine" ≤ -0.5 * onsetOf "Norepinephrine"))) :=
  c5_classifier_boundary_law "Norepinephrine" 5

end MOISS
